import Mathlib

/-!
Shallow embedding of the Product CRUD service.

The request handlers are translated from `src/service/routes.py`.
The entity model and repository operations (`service/models.py`) are not
present in the repository snapshot — only their tests and callers are —
so those definitions are modelled from the spec (sections 3, 4.1, 4.2);
each such definition says so in its doc comment.
-/

/-- Modelled from the spec: the closed category enumeration of
`service/models.py` (missing from the snapshot).  The spec fixes a
code-defined enumeration; the tests reference the member `CLOTHS` and the
member set of the reference project. -/
inductive Category where
  | UNKNOWN
  | CLOTHS
  | FOOD
  | HOUSEWARES
  | AUTOMOTIVE
  | TOOLS
deriving DecidableEq, Repr

/-- The enumeration member's name, as Python `category.name` renders it. -/
def Category.catName : Category → String
  | .UNKNOWN => "UNKNOWN"
  | .CLOTHS => "CLOTHS"
  | .FOOD => "FOOD"
  | .HOUSEWARES => "HOUSEWARES"
  | .AUTOMOTIVE => "AUTOMOTIVE"
  | .TOOLS => "TOOLS"

/-- Exact-name member lookup, as Python `getattr(Category, s)`: returns the
member whose name is exactly `s`, and `none` (an `AttributeError` at the
call site) otherwise. -/
def Category.fromName : String → Option Category
  | "UNKNOWN" => some .UNKNOWN
  | "CLOTHS" => some .CLOTHS
  | "FOOD" => some .FOOD
  | "HOUSEWARES" => some .HOUSEWARES
  | "AUTOMOTIVE" => some .AUTOMOTIVE
  | "TOOLS" => some .TOOLS
  | _ => none

/-- A decimal number `num / 10 ^ exp`, the embedding of Python `Decimal`
values (the price field).  Two representations may denote the same number
(for example 125/10^1 and 1250/10^2, i.e. 12.5 and 12.50). -/
structure Dec where
  num : Int
  exp : Nat
deriving DecidableEq, Repr

/-- Numeric (value) equality of decimals, as opposed to equality of their
string representations: `a.num / 10^a.exp = b.num / 10^b.exp`. -/
def Dec.numEq (a b : Dec) : Prop :=
  a.num * (10 : Int) ^ b.exp = b.num * (10 : Int) ^ a.exp

instance (a b : Dec) : Decidable (a.numEq b) := by
  unfold Dec.numEq; infer_instance

/-- JSON-compatible values as they appear in request and response bodies.
`dec` is a decimal-preserving payload: Python's `str(Decimal) / Decimal(str)`
pair is an exact round trip on decimal values, so the serialized price is
carried as the decimal it denotes. -/
inductive JVal where
  | str (s : String)
  | dec (d : Dec)
  | int (n : Int)
  | bool (b : Bool)
  | null
deriving DecidableEq, Repr

/-- A JSON object body: a mapping from keys to values. -/
abbrev Body := List (String × JVal)

/-- Modelled from the spec: the Product record shape of `service/models.py`
(missing from the snapshot), spec section 3.  `id` is `none` for a
transient instance and `some i` once persisted. -/
structure Product where
  id : Option Nat
  name : String
  description : String
  price : Dec
  available : Bool
  category : Category
deriving DecidableEq, Repr

/-- A fresh `Product()` instance before deserialization populates it. -/
def Product.empty : Product :=
  { id := none, name := "", description := "", price := ⟨0, 0⟩,
    available := false, category := .UNKNOWN }

/-- Modelled from the spec: `Product.serialize()` of `service/models.py`
(missing from the snapshot).  Spec 4.1: a mapping with keys
`id, name, description, price, available, category`, where `category` is
the enumeration member name (string), `price` a decimal-preserving
representation and `available` a boolean.  No side effects. -/
def Product.serialize (p : Product) : Body :=
  [ ("id", match p.id with | some i => .int i | none => .null),
    ("name", .str p.name),
    ("description", .str p.description),
    ("price", .dec p.price),
    ("available", .bool p.available),
    ("category", .str p.category.catName) ]

/-- Validation failures raised by the model, Python `DataValidationError`. -/
abbrev DataValidationError := String

/-- Modelled from the spec: `Product.deserialize(mapping)` of
`service/models.py` (missing from the snapshot).  Spec 3 and 4.1: fails
with a validation error when `name` is missing or empty, when `available`
is present but not a boolean, when `category` does not match an
enumeration member, or when the required `price` field is malformed;
`description` is optional; `id` is never taken from the body.  Validates
all fields before assigning any (the spec's recommended policy), returning
the fully populated instance or an error. -/
def Product.deserialize (p : Product) (data : Body) :
    Except DataValidationError Product :=
  match data.lookup "name" with
  | some (.str n) =>
    if n = "" then .error "Invalid product: empty name" else
    match data.lookup "price" with
    | some (.dec d) =>
      match data.lookup "available" with
      | some (.bool b) =>
        match data.lookup "category" with
        | some (.str c) =>
          match Category.fromName c with
          | some cat =>
            let desc := match data.lookup "description" with
              | some (.str s) => s
              | _ => p.description
            .ok { p with name := n, description := desc, price := d,
                         available := b, category := cat }
          | none => .error "Invalid product: unknown category"
        | _ => .error "Invalid product: missing category"
      | some _ => .error "Invalid type for boolean [available]"
      | none => .error "Invalid product: missing available"
    | _ => .error "Invalid product: missing or malformed price"
  | some _ => .error "Invalid product: name is not a string"
  | none => .error "Invalid product: missing name"

/-- The persisted Product table, the single source of truth for persisted
state (spec section 3, Ownership). -/
abbrev Table := List Product

/-- The next auto-increment id the storage engine assigns. -/
def nextId (t : Table) : Nat :=
  (t.foldl (fun m p => max m (p.id.getD 0)) 0) + 1

/-- Modelled from the spec: `Product.create()` (missing from the
snapshot), spec 4.2: inserts the transient instance and assigns the
generated id back onto it. -/
def Product.create (t : Table) (p : Product) : Product × Table :=
  let p1 := { p with id := some (nextId t) }
  (p1, t ++ [p1])

/-- Modelled from the spec: `Product.update()` (missing from the
snapshot), spec 4.2: requires `id` to be set; fails with a validation
error, before issuing any storage write, when `id` is absent; otherwise
persists the in-memory field values to the matching row. -/
def Product.update (t : Table) (p : Product) :
    Except DataValidationError Table :=
  match p.id with
  | none => .error "Update called with empty ID field"
  | some i => .ok (t.map fun q => if q.id = some i then p else q)

/-- Modelled from the spec: `Product.delete()` (missing from the
snapshot), spec 4.2: removes the row matching the instance's id. -/
def deleteRow (t : Table) (i : Nat) : Table :=
  t.filter fun q => q.id ≠ some i

/-- Modelled from the spec: `Product.find(id)` (missing from the
snapshot), spec 4.2: the persisted instance matching `id`, or the
not-found sentinel `none`. -/
def Product.find (t : Table) (i : Nat) : Option Product :=
  t.find? fun q => q.id = some i

/-- Modelled from the spec: `Product.all()` (missing from the snapshot),
spec 4.2: every persisted instance. -/
def Product.allRows (t : Table) : List Product := t

/-- Modelled from the spec: `Product.find_by_name(name)` (missing from
the snapshot), spec 4.2: all persisted instances with exact match on
`name`. -/
def find_by_name (t : Table) (n : String) : List Product :=
  t.filter fun q => q.name = n

/-- Modelled from the spec: `Product.find_by_category(value)` (missing
from the snapshot), spec 4.2: all instances whose category equals the
given enumeration value. -/
def find_by_category (t : Table) (c : Category) : List Product :=
  t.filter fun q => q.category = c

/-- Modelled from the spec: `Product.find_by_availability(bool)` (missing
from the snapshot), spec 4.2: all instances whose `available` field
equals the given boolean. -/
def find_by_availability (t : Table) (b : Bool) : List Product :=
  t.filter fun q => q.available = b

/-- The query-string filters a GET /products request may carry
(`request.args.get` yields `none` when the parameter is absent). -/
structure Query where
  name : Option String
  category : Option String
  availability : Option String
deriving DecidableEq, Repr

/-- Python truthiness of an optional query-parameter string, as the
`if name:` tests in `list_all_product` use it: present and non-empty. -/
def truthy : Option String → Bool
  | none => false
  | some s => s != ""

/-- Python `str.upper()` as the handler applies it to the category
parameter (ASCII case mapping over the characters). -/
def strUpper (s : String) : String := ⟨s.data.map Char.toUpper⟩

/-- Lower-casing of a string (ASCII case mapping over the characters),
used by the backend's case-insensitive boolean literal parsing. -/
def strLower (s : String) : String := ⟨s.data.map Char.toLower⟩

/-- Boolean coercion the storage backend applies when the handler passes
the raw `availability` string through to the boolean-column equality
filter (PostgreSQL boolean input literals, case-insensitive); a
non-coercible string is a backend error escaping the handler. -/
def pgBool? (s : String) : Option Bool :=
  match strLower s with
  | "true" | "t" | "yes" | "on" | "1" => some true
  | "false" | "f" | "no" | "off" | "0" => some false
  | _ => none

/-- Outcome of the GET /products handler: a 200 response with a JSON
array of serialized products, a 404 from `abort(404)`, or an exception
escaping the handler untranslated (no 4xx response at all). -/
inductive ListResult where
  | ok (body : List Body)
  | notFound
  | uncaughtError (msg : String)
deriving DecidableEq, Repr

/-- The filter-selection chain of `list_all_product`
(src/service/routes.py lines 109-128): the `if name / elif category /
elif availability / else` ladder choosing which lookup runs.  An invalid
category name makes `getattr(Category, category.upper())` raise an
`AttributeError`; a non-coercible availability string is a backend error. -/
def selectProducts (t : Table) (q : Query) : Except String (List Product) :=
  if truthy q.name then
    .ok (find_by_name t (q.name.getD ""))
  else if truthy q.category then
    match Category.fromName (strUpper (q.category.getD "")) with
    | some c => .ok (find_by_category t c)
    | none => .error "AttributeError"
  else if truthy q.availability then
    match pgBool? (q.availability.getD "") with
    | some b => .ok (find_by_availability t b)
    | none => .error "DataError"
  else
    .ok (Product.allRows t)

/-- The GET /products handler `list_all_product`
(src/service/routes.py lines 101-134): run the selected lookup, then
`abort(404)` on an empty result and otherwise answer 200 with the
serialized products. -/
def list_all_product (t : Table) (q : Query) : ListResult :=
  match selectProducts t q with
  | .error e => .uncaughtError e
  | .ok prods =>
    if prods.isEmpty then .notFound
    else .ok (prods.map Product.serialize)

/-- Outcome of the POST /products handler (Content-Type already checked):
201 with the serialized product and the Location header value, or 400
when deserialization raises a validation error (spec 4.3/7: validation
failures surface as client errors). -/
inductive CreateResult where
  | created (body : Body) (location : String)
  | badRequest (msg : String)
deriving DecidableEq, Repr

/-- The POST /products handler `create_products`
(src/service/routes.py lines 71-94): `Product()` deserialized from the
body, then `create()`, answering 201 with the serialized product and a
Location header fixed to "/". -/
def create_products (t : Table) (data : Body) : CreateResult × Table :=
  match Product.empty.deserialize data with
  | .error e => (.badRequest e, t)
  | .ok p =>
    let pt := Product.create t p
    (.created pt.1.serialize "/", pt.2)

/-- Outcome of the PUT /products/id handler (Content-Type already
checked): 200 with the serialized product, 404 when the id is absent, or
400 when deserialization raises a validation error. -/
inductive UpdateResult where
  | ok (body : Body)
  | notFound
  | badRequest (msg : String)
deriving DecidableEq, Repr

/-- The PUT /products/id handler `update_product`
(src/service/routes.py lines 141-159): find the product (404 if absent),
deserialize the body onto it, force-set `id` to the path id, `update()`,
answer 200 with the serialized result. -/
def update_product (t : Table) (pid : Nat) (data : Body) :
    UpdateResult × Table :=
  match Product.find t pid with
  | none => (.notFound, t)
  | some prod =>
    match prod.deserialize data with
    | .error e => (.badRequest e, t)
    | .ok p1 =>
      let p2 := { p1 with id := some pid }
      match Product.update t p2 with
      | .error e => (.badRequest e, t)
      | .ok t1 => (.ok p2.serialize, t1)

/-- Outcome of the DELETE /products/id handler: 200 with a confirmation
message, or 404 when the id is absent. -/
inductive DeleteResult where
  | ok (message : String)
  | notFound
deriving DecidableEq, Repr

/-- The DELETE /products/id handler `delete_product`
(src/service/routes.py lines 187-200): find the product (404 if absent),
`delete()`, answer 200 with a confirmation message (the message string in
the source is a plain literal, not an f-string). -/
def delete_product (t : Table) (pid : Nat) : DeleteResult × Table :=
  match Product.find t pid with
  | none => (.notFound, t)
  | some _ =>
    (.ok "The product with name \x7bprod.name\x7d successfully deleted",
     deleteRow t pid)

/-! ## Helper lemmas -/

/-- Looking up a member name produced by `catName` recovers the member. -/
theorem Category.fromName_catName (c : Category) :
    Category.fromName c.catName = some c := by
  cases c <;> rfl

/-- After removing every row with id `i`, `find i` is the sentinel. -/
theorem find_deleteRow (t : Table) (i : Nat) :
    Product.find (deleteRow t i) i = none := by
  rw [Product.find, List.find?_eq_none]
  intro x hx
  have h := List.of_mem_filter hx
  simp at h ⊢
  exact h

/-- A nonempty list is not `isEmpty`. -/
theorem isEmpty_false_of_ne_nil {α : Type} {l : List α} (h : l ≠ []) :
    l.isEmpty = false := by
  simp [List.isEmpty_iff]
  exact h

/-! ## Claim theorems -/

/-- C5: `update()` on an instance whose id is `None` raises a validation
error (not a storage error) and performs no storage write: no table ever
comes back as a success result, so the stored table is unchanged by the
failed call. -/
theorem update_without_id_fails (t : Table) (p : Product)
    (h : p.id = none) :
    Product.update t p = .error "Update called with empty ID field" ∧
    ∀ t', Product.update t p ≠ .ok t' := by
  refine ⟨?_, ?_⟩
  · simp [Product.update, h]
  · intro t'
    simp [Product.update, h]

/-- Witness for C5 at a concrete transient product. -/
theorem update_without_id_fails_witness :
    Product.empty.id = none ∧
    (Product.update [] Product.empty =
        .error "Update called with empty ID field" ∧
      ∀ t', Product.update [] Product.empty ≠ .ok t') :=
  ⟨rfl, update_without_id_fails [] Product.empty rfl⟩

/-- C4: a POST /products body that fails deserialization (for example one
missing the name field) yields a 400 client error and leaves the stored
table unchanged: no product is created. -/
theorem create_products_validation_400 (t : Table) (data : Body)
    (e : DataValidationError)
    (h : Product.empty.deserialize data = .error e) :
    create_products t data = (.badRequest e, t) := by
  simp [create_products, h]

/-- Witness for C4: a body missing `name` gets 400 and no table change. -/
theorem create_products_validation_400_witness :
    Product.empty.deserialize [] = .error "Invalid product: missing name" ∧
    create_products [] [] = (.badRequest "Invalid product: missing name", []) :=
  ⟨rfl, create_products_validation_400 [] [] "Invalid product: missing name" rfl⟩

/-- A concrete valid request body (the spec's end-to-end example). -/
def sampleBody : Body :=
  [ ("name", .str "Fedora"), ("description", .str "A red hat"),
    ("price", .dec ⟨1250, 2⟩), ("available", .bool true),
    ("category", .str "CLOTHS") ]

/-- The product `create_products` persists from `sampleBody` on an empty
table (id 1 assigned by storage). -/
def sampleCreated : Product :=
  { id := some 1, name := "Fedora", description := "A red hat",
    price := ⟨1250, 2⟩, available := true, category := .CLOTHS }

/-- C9: every successful (201) POST /products response carries a Location
header whose value is the fixed string "/", whatever the request body,
the table, and the created product's id. -/
theorem create_products_location_is_root (t : Table) (data : Body)
    (b : Body) (loc : String) (t' : Table)
    (h : create_products t data = (.created b loc, t')) :
    loc = "/" := by
  unfold create_products at h
  cases hd : Product.empty.deserialize data with
  | error e => rw [hd] at h; exact absurd (congrArg Prod.fst h) (by simp)
  | ok p =>
    rw [hd] at h
    simp at h
    exact h.1.2.symm

/-- Witness for C9 at a concrete successful creation. -/
theorem create_products_location_is_root_witness :
    create_products [] sampleBody =
      (.created sampleCreated.serialize "/", [sampleCreated]) ∧
    ("/" : String) = "/" :=
  ⟨by decide, create_products_location_is_root [] sampleBody
    sampleCreated.serialize "/" [sampleCreated] (by decide)⟩

/-- C1: for every GET /products request whose lookup yields a product
set (unfiltered or filtered), an empty set is answered 404 and a
non-empty one 200 with the serialized products as a JSON array; a 200
with an empty list never occurs. -/
theorem list_products_empty_is_404 (t : Table) (q : Query)
    (prods : List Product) (h : selectProducts t q = .ok prods) :
    (prods = [] → list_all_product t q = .notFound) ∧
    (prods ≠ [] → list_all_product t q = .ok (prods.map Product.serialize)) ∧
    list_all_product t q ≠ .ok [] := by
  refine ⟨?_, ?_, ?_⟩
  · intro he
    subst he
    simp [list_all_product, h]
  · intro hne
    simp [list_all_product, h, isEmpty_false_of_ne_nil hne]
  · intro hcon
    simp only [list_all_product, h] at hcon
    by_cases he : prods.isEmpty
    · rw [if_pos he] at hcon; exact ListResult.noConfusion hcon
    · rw [if_neg he] at hcon
      have := ListResult.ok.inj hcon
      have hp : prods = [] := by
        cases prods with
        | nil => rfl
        | cons a l => exact absurd this (by simp)
      rw [hp] at he
      exact he rfl

/-- Witness for C1: empty table, unfiltered request, answered 404. -/
theorem list_products_empty_is_404_witness :
    selectProducts [] ⟨none, none, none⟩ = .ok [] ∧
    list_all_product [] ⟨none, none, none⟩ = .notFound ∧
    list_all_product [sampleCreated] ⟨none, none, none⟩ =
      .ok ([sampleCreated].map Product.serialize) :=
  ⟨rfl,
   (list_products_empty_is_404 [] ⟨none, none, none⟩ [] rfl).1 rfl,
   (list_products_empty_is_404 [sampleCreated] ⟨none, none, none⟩
      [sampleCreated] rfl).2.1 (by simp)⟩

/-- C2: a GET /products request whose only present filter is
`availability` with value "true" or "false", and whose result set is
non-empty, is answered 200 with exactly the persisted products whose
`available` field equals the denoted boolean, and no others. -/
theorem availability_filter_exact (t : Table) (n c : Option String)
    (v : String) (b : Bool)
    (hn : truthy n = false) (hc : truthy c = false)
    (hv : (v = "true" ∧ b = true) ∨ (v = "false" ∧ b = false))
    (hne : find_by_availability t b ≠ []) :
    list_all_product t ⟨n, c, some v⟩ =
      .ok ((find_by_availability t b).map Product.serialize) ∧
    ∀ p, p ∈ find_by_availability t b ↔ p ∈ t ∧ p.available = b := by
  have hsel : selectProducts t ⟨n, c, some v⟩ =
      .ok (find_by_availability t b) := by
    rcases hv with ⟨hv1, hb⟩ | ⟨hv1, hb⟩ <;> subst hv1 <;> subst hb <;>
      simp only [selectProducts, hn, hc] <;> rfl
  refine ⟨?_, ?_⟩
  · simp [list_all_product, hsel, isEmpty_false_of_ne_nil hne]
  · intro p
    simp [find_by_availability, List.mem_filter]

/-- Witness for C2: one available and one unavailable product,
filter "false". -/
theorem availability_filter_exact_witness :
    list_all_product
        [sampleCreated, { sampleCreated with id := some 2, available := false }]
        ⟨none, none, some "false"⟩ =
      .ok ((find_by_availability
        [sampleCreated, { sampleCreated with id := some 2, available := false }]
        false).map Product.serialize) ∧
    ∀ p, p ∈ find_by_availability
        [sampleCreated, { sampleCreated with id := some 2, available := false }]
        false ↔
      p ∈ [sampleCreated, { sampleCreated with id := some 2, available := false }] ∧
      p.available = false :=
  availability_filter_exact
    [sampleCreated, { sampleCreated with id := some 2, available := false }]
    none none "false" false rfl rfl (Or.inr ⟨rfl, rfl⟩) (by decide)

/-- C10: a filter counts as present only when its value is a non-empty
string; at most one filter is applied, chosen by the priority order name,
category, availability (a request carrying several is answered by the
highest-priority present filter alone, ignoring the others); with none
present, all products are listed. -/
theorem filter_priority (t : Table) (n c a : Option String) :
    (truthy n = true ↔ ∃ s, n = some s ∧ s ≠ "") ∧
    (truthy n = true →
      selectProducts t ⟨n, c, a⟩ = .ok (find_by_name t (n.getD ""))) ∧
    (truthy n = false → truthy c = true →
      selectProducts t ⟨n, c, a⟩ = selectProducts t ⟨none, c, none⟩) ∧
    (truthy n = false → truthy c = false → truthy a = true →
      selectProducts t ⟨n, c, a⟩ = selectProducts t ⟨none, none, a⟩) ∧
    (truthy n = false → truthy c = false → truthy a = false →
      selectProducts t ⟨n, c, a⟩ = .ok (Product.allRows t)) := by
  refine ⟨?_, ?_, ?_, ?_, ?_⟩
  · cases n with
    | none => simp [truthy]
    | some s => simp [truthy]
  · intro hn
    simp [selectProducts, hn]
  · intro hn hc
    simp only [selectProducts, hn, hc]
    simp [truthy]
  · intro hn hc ha
    simp only [selectProducts, hn, hc, ha]
    simp [truthy]
  · intro hn hc ha
    simp [selectProducts, hn, hc, ha]

/-- Witness for C10: a request carrying all three filters is answered by
the name lookup alone; with name empty it falls to the category branch;
with nothing present, all rows come back. -/
theorem filter_priority_witness :
    selectProducts [sampleCreated] ⟨some "x", some "cloths", some "true"⟩ =
      .ok (find_by_name [sampleCreated] "x") ∧
    selectProducts [sampleCreated] ⟨some "", some "cloths", some "true"⟩ =
      selectProducts [sampleCreated] ⟨none, some "cloths", none⟩ ∧
    selectProducts [sampleCreated] ⟨none, some "", some "true"⟩ =
      selectProducts [sampleCreated] ⟨none, none, some "true"⟩ ∧
    selectProducts [sampleCreated] ⟨none, none, none⟩ =
      .ok (Product.allRows [sampleCreated]) :=
  ⟨(filter_priority [sampleCreated] (some "x") (some "cloths")
      (some "true")).2.1 rfl,
   (filter_priority [sampleCreated] (some "") (some "cloths")
      (some "true")).2.2.1 rfl rfl,
   (filter_priority [sampleCreated] none (some "") (some "true")).2.2.2.1
      rfl rfl rfl,
   (filter_priority [sampleCreated] none none none).2.2.2.2 rfl rfl rfl⟩

/-- C7: the category query parameter is matched against enumeration
member names after uppercasing (so matching is case-insensitive); when
the uppercased value names no member, the handler ends in an unhandled
attribute-lookup error rather than any 4xx response. -/
theorem category_filter_uppercase_lookup (t : Table) (n : Option String)
    (c : String) (a : Option String)
    (hn : truthy n = false) (hc : c ≠ "") :
    (∀ cv, Category.fromName (strUpper c) = some cv →
      list_all_product t ⟨n, some c, a⟩ =
        (if (find_by_category t cv).isEmpty then .notFound
         else .ok ((find_by_category t cv).map Product.serialize))) ∧
    (Category.fromName (strUpper c) = none →
      list_all_product t ⟨n, some c, a⟩ = .uncaughtError "AttributeError" ∧
      list_all_product t ⟨n, some c, a⟩ ≠ .notFound ∧
      ∀ b, list_all_product t ⟨n, some c, a⟩ ≠ .ok b) := by
  have hct : truthy (some c) = true := by
    simp [truthy]
    exact hc
  constructor
  · intro cv hcv
    simp [list_all_product, selectProducts, hn, hct, hcv]
  · intro hcv
    refine ⟨?_, ?_, ?_⟩
    · simp [list_all_product, selectProducts, hn, hct, hcv]
    · simp [list_all_product, selectProducts, hn, hct, hcv]
    · intro b
      simp [list_all_product, selectProducts, hn, hct, hcv]

/-- Witness for C7: lowercase "cloths" resolves after uppercasing; the
unknown name "hats" ends in an unhandled attribute error. -/
theorem category_filter_uppercase_lookup_witness :
    list_all_product [sampleCreated] ⟨none, some "cloths", none⟩ =
      (if (find_by_category [sampleCreated] .CLOTHS).isEmpty then .notFound
       else .ok ((find_by_category [sampleCreated] .CLOTHS).map
         Product.serialize)) ∧
    list_all_product [sampleCreated] ⟨none, some "hats", none⟩ =
      .uncaughtError "AttributeError" :=
  ⟨(category_filter_uppercase_lookup [sampleCreated] none "cloths" none
      rfl (by decide)).1 .CLOTHS (by decide),
   ((category_filter_uppercase_lookup [sampleCreated] none "hats" none
      rfl (by decide)).2 (by decide)).1⟩

/-- C3: PUT /products/id with a JSON body answers 404 when no product has
the path id; otherwise the body is deserialized onto the found instance,
the instance id is force-set to the path id (the path id wins over any id
in the body), the row is updated, and the answer is 200 with the
serialized product whose id field equals the path id. -/
theorem update_product_path_id_wins (t : Table) (pid : Nat) (data : Body) :
    (Product.find t pid = none → update_product t pid data = (.notFound, t)) ∧
    (∀ prod p1, Product.find t pid = some prod →
      Product.deserialize prod data = .ok p1 →
      update_product t pid data =
        (.ok (Product.serialize { p1 with id := some pid }),
         t.map fun q =>
           if q.id = some pid then { p1 with id := some pid } else q) ∧
      (Product.serialize { p1 with id := some pid }).lookup "id" =
        some (.int pid)) := by
  constructor
  · intro h
    simp [update_product, h]
  · intro prod p1 hf hd
    constructor
    · simp [update_product, hf, hd, Product.update]
    · rfl

/-- Witness for C3 at a one-row table: path id 1 found and updated, and
path id 2 absent hence 404. -/
theorem update_product_path_id_wins_witness :
    (update_product [sampleCreated] 1 sampleBody =
      (.ok (Product.serialize { sampleCreated with id := some 1 }),
       [sampleCreated].map fun q =>
         if q.id = some 1 then { sampleCreated with id := some 1 } else q) ∧
     (Product.serialize { sampleCreated with id := some 1 }).lookup "id" =
       some (.int 1)) ∧
    update_product [sampleCreated] 2 sampleBody = (.notFound, [sampleCreated]) :=
  ⟨(update_product_path_id_wins [sampleCreated] 1 sampleBody).2
      sampleCreated sampleCreated (by decide) rfl,
   (update_product_path_id_wins [sampleCreated] 2 sampleBody).1 (by decide)⟩

/-- C8: DELETE /products/id answers 404 when no product has the id; when
one does, the handler deletes it, answers 200 with a confirmation
message, and a subsequent `find(id)` returns the not-found sentinel. -/
theorem delete_product_then_find_none (t : Table) (pid : Nat) :
    (Product.find t pid = none → delete_product t pid = (.notFound, t)) ∧
    (∀ p, Product.find t pid = some p →
      delete_product t pid =
        (.ok "The product with name \x7bprod.name\x7d successfully deleted",
         deleteRow t pid) ∧
      Product.find (deleteRow t pid) pid = none) := by
  constructor
  · intro h
    simp [delete_product, h]
  · intro p hf
    exact ⟨by simp [delete_product, hf], find_deleteRow t pid⟩

/-- Witness for C8 at a one-row table: id 1 deleted then unfindable, and
id 2 absent hence 404. -/
theorem delete_product_then_find_none_witness :
    (delete_product [sampleCreated] 1 =
      (.ok "The product with name \x7bprod.name\x7d successfully deleted",
       deleteRow [sampleCreated] 1) ∧
     Product.find (deleteRow [sampleCreated] 1) 1 = none) ∧
    delete_product [sampleCreated] 2 = (.notFound, [sampleCreated]) :=
  ⟨(delete_product_then_find_none [sampleCreated] 1).2 sampleCreated (by decide),
   (delete_product_then_find_none [sampleCreated] 2).1 (by decide)⟩

/-- C6: the serialized form of a valid product has exactly the keys id,
name, description, price, available, category, with category rendered as
its enumeration member name string and available as a boolean; and
deserializing it (onto any instance) reproduces the same name,
description, price, available and category values, the price by numeric
equality. -/
theorem serialize_deserialize_round_trip (P q : Product) (h : P.name ≠ "") :
    Product.deserialize q (Product.serialize P) =
      .ok { q with name := P.name, description := P.description,
                   price := P.price, available := P.available,
                   category := P.category } ∧
    (∀ P', Product.deserialize q (Product.serialize P) = .ok P' →
      P'.name = P.name ∧ P'.description = P.description ∧
      P'.price.numEq P.price ∧ P'.available = P.available ∧
      P'.category = P.category) ∧
    (Product.serialize P).map Prod.fst =
      ["id", "name", "description", "price", "available", "category"] ∧
    (Product.serialize P).lookup "category" =
      some (.str P.category.catName) ∧
    (Product.serialize P).lookup "available" = some (.bool P.available) := by
  have hrt : Product.deserialize q (Product.serialize P) =
      .ok { q with name := P.name, description := P.description,
                   price := P.price, available := P.available,
                   category := P.category } := by
    simp [Product.deserialize, Product.serialize, List.lookup, h,
      Category.fromName_catName]
  refine ⟨hrt, ?_, ?_, ?_, ?_⟩
  · intro P' hP'
    rw [hrt] at hP'
    have he := Except.ok.inj hP'
    rw [← he]
    refine ⟨rfl, rfl, ?_, rfl, rfl⟩
    unfold Dec.numEq
    rfl
  · rfl
  · simp [Product.serialize, List.lookup]
  · simp [Product.serialize, List.lookup]

/-- Witness for C6 at the spec's example product. -/
theorem serialize_deserialize_round_trip_witness :
    sampleCreated.name ≠ "" ∧
    Product.deserialize Product.empty (Product.serialize sampleCreated) =
      .ok { Product.empty with
              name := sampleCreated.name,
              description := sampleCreated.description,
              price := sampleCreated.price,
              available := sampleCreated.available,
              category := sampleCreated.category } :=
  ⟨by decide,
   (serialize_deserialize_round_trip sampleCreated Product.empty
      (by decide)).1⟩
